import Mathlib

/-!
Verification of the IoT telemetry ingestion and alerting engine of the CKD
backend (`backend/app/api/api_v1/endpoints/iot.py` together with the ORM
models in `backend/app/models/iot.py`).

Numeric payload values and thresholds are modelled as rationals (the code
compares JSON numbers); timestamps as naturals; the SQLAlchemy session as an
explicit `Store` value threaded through each endpoint, with an explicit
`commitOk` flag standing for success or failure of `db.commit()` (a failed
commit rolls back, leaving the store unchanged).
-/

namespace CKD

/-- Python truthiness of an optional numeric value: `None` and `0` are falsy.
The classifier guards every branch with `... and value`, so this is the guard
the source actually evaluates. -/
def pyTruthy : Option ℚ → Bool
  | none => false
  | some v => v != 0

/-- The `blood_pressure` entry of a thresholds JSON map, as read by the code
(`.get("systolic_max", 140)` etc.); fields the classifier never reads are
omitted. -/
structure BloodPressureBounds where
  systolic_max : Option ℚ
  diastolic_max : Option ℚ
  deriving Repr, DecidableEq

/-- A `{max, min}` entry of a thresholds JSON map (glucose / heart_rate). -/
structure MinMaxBounds where
  max : Option ℚ
  min : Option ℚ
  deriving Repr, DecidableEq

/-- The thresholds JSON map, restricted to the keys `_analyze_reading` reads
(`weight` and `gfr` entries are never consulted by the classifier). A missing
key behaves like `.get(key, {})` in the source. -/
structure ThresholdMap where
  blood_pressure : Option BloodPressureBounds
  glucose : Option MinMaxBounds
  heart_rate : Option MinMaxBounds
  deriving Repr, DecidableEq

/-- Reads `thresholds.get("blood_pressure", {}).get("systolic_max", 140)`. -/
def ThresholdMap.systolicMax (t : ThresholdMap) : ℚ :=
  ((t.blood_pressure.bind (·.systolic_max)).getD 140)

/-- Reads `thresholds.get("glucose", {}).get("max", 140)`. -/
def ThresholdMap.glucoseMax (t : ThresholdMap) : ℚ :=
  ((t.glucose.bind (·.max)).getD 140)

/-- Reads `thresholds.get("glucose", {}).get("min", 70)`. -/
def ThresholdMap.glucoseMin (t : ThresholdMap) : ℚ :=
  ((t.glucose.bind (·.min)).getD 70)

/-- Reads `thresholds.get("heart_rate", {}).get("max", 100)`. -/
def ThresholdMap.heartRateMax (t : ThresholdMap) : ℚ :=
  ((t.heart_rate.bind (·.max)).getD 100)

/-- Reads `thresholds.get("heart_rate", {}).get("min", 60)`. -/
def ThresholdMap.heartRateMin (t : ThresholdMap) : ℚ :=
  ((t.heart_rate.bind (·.min)).getD 60)

/-- The default thresholds dict hardcoded in `_analyze_reading` (the `weight`
entry is present in the source dict but never read by any classifier branch,
so it does not appear in the restricted map). -/
def defaultThresholds : ThresholdMap :=
  { blood_pressure := some { systolic_max := some 140, diastolic_max := some 90 }
    glucose := some { max := some 140, min := some 70 }
    heart_rate := some { max := some 100, min := some 60 } }

/-- One `monitoring_profiles` row: per-patient thresholds (`patient_id` is unique). -/
structure MonitoringProfile where
  patient_id : Nat
  thresholds : ThresholdMap
  deriving Repr, DecidableEq

/-- The profile lookup at the top of `_analyze_reading`:
`db.query(PatientMonitoringProfile).filter(patient_id == ...).first()`,
falling back to the hardcoded default dict when no row exists. -/
def resolveThresholds (patient_id : Nat) (profiles : List MonitoringProfile) :
    ThresholdMap :=
  match profiles.find? (fun p => p.patient_id == patient_id) with
  | none => defaultThresholds
  | some p => p.thresholds

/-- The quadruple `(quality, is_alert, severity, message)` returned by
`_analyze_reading`. -/
structure Analysis where
  quality : String
  is_alert : Bool
  severity : Option String
  message : Option String
  deriving Repr, DecidableEq

/-- The initial `quality = "good", is_alert = False, severity = None,
message = None` state, which survives when no branch fires. -/
def goodAnalysis : Analysis :=
  { quality := "good", is_alert := false, severity := none, message := none }

/-- The helper `_analyze_reading(reading_type, value, patient_id, db)`: resolves the
patient thresholds then runs the `if/elif` classification chain. Every branch
is guarded by `... and value` (Python truthiness), exactly as in the source. -/
def analyzeReading (reading_type : String) (value : Option ℚ)
    (patient_id : Nat) (profiles : List MonitoringProfile) : Analysis :=
  let thresholds := resolveThresholds patient_id profiles
  let v := value.getD 0
  if reading_type = "blood_pressure" ∧ pyTruthy value then
    if v > thresholds.systolicMax then
      { quality := "warning", is_alert := true, severity := some "warning"
        message := some ("High blood pressure detected: " ++ toString v ++ " mmHg") }
    else goodAnalysis
  else if reading_type = "glucose" ∧ pyTruthy value then
    if v > thresholds.glucoseMax then
      { quality := "critical", is_alert := true, severity := some "critical"
        message := some ("High glucose level: " ++ toString v ++ " mg/dL") }
    else if v < thresholds.glucoseMin then
      { quality := "critical", is_alert := true, severity := some "critical"
        message := some ("Low glucose level: " ++ toString v ++ " mg/dL") }
    else goodAnalysis
  else if reading_type = "heart_rate" ∧ pyTruthy value then
    if v > thresholds.heartRateMax then
      { quality := "warning", is_alert := true, severity := some "warning"
        message := some ("High heart rate: " ++ toString v ++ " bpm") }
    else if v < thresholds.heartRateMin then
      { quality := "warning", is_alert := true, severity := some "warning"
        message := some ("Low heart rate: " ++ toString v ++ " bpm") }
    else goodAnalysis
  else goodAnalysis

/-- The classification table of spec section 4.3, transcribed from the spec's
words: rules are evaluated whenever a numeric value is present (`some v`), an
absent value short-circuits to quality good with no alert, and the rows are
tried first-match-wins. -/
def specClassify (reading_type : String) (value : Option ℚ)
    (t : ThresholdMap) : Analysis :=
  match value with
  | none => goodAnalysis
  | some v =>
    if reading_type = "blood_pressure" ∧ v > t.systolicMax then
      { quality := "warning", is_alert := true, severity := some "warning"
        message := some ("High blood pressure detected: " ++ toString v ++ " mmHg") }
    else if reading_type = "glucose" ∧ v > t.glucoseMax then
      { quality := "critical", is_alert := true, severity := some "critical"
        message := some ("High glucose level: " ++ toString v ++ " mg/dL") }
    else if reading_type = "glucose" ∧ v < t.glucoseMin then
      { quality := "critical", is_alert := true, severity := some "critical"
        message := some ("Low glucose level: " ++ toString v ++ " mg/dL") }
    else if reading_type = "heart_rate" ∧ v > t.heartRateMax then
      { quality := "warning", is_alert := true, severity := some "warning"
        message := some ("High heart rate: " ++ toString v ++ " bpm") }
    else if reading_type = "heart_rate" ∧ v < t.heartRateMin then
      { quality := "warning", is_alert := true, severity := some "warning"
        message := some ("Low heart rate: " ++ toString v ++ " bpm") }
    else goodAnalysis

/-- The helper `_get_alert_type(reading_type, value)`: the directional tag, computed from
the hardcoded bounds 140 / 140 / 70 / 100 / 60, with `general_{reading_type}`
as the fall-through return. -/
def getAlertType (reading_type : String) (value : Option ℚ) : String :=
  if reading_type = "blood_pressure" then
    if pyTruthy value ∧ value.getD 0 > 140 then "high_bp"
    else "general_" ++ reading_type
  else if reading_type = "glucose" then
    if pyTruthy value ∧ value.getD 0 > 140 then "high_glucose"
    else if pyTruthy value ∧ value.getD 0 < 70 then "low_glucose"
    else "general_" ++ reading_type
  else if reading_type = "heart_rate" then
    if pyTruthy value ∧ value.getD 0 > 100 then "high_heart_rate"
    else if pyTruthy value ∧ value.getD 0 < 60 then "low_heart_rate"
    else "general_" ++ reading_type
  else "general_" ++ reading_type

/-- The directional tag of the `_analyze_reading` branch that fired (mirrors
the classifier's branch structure over the resolved thresholds); `none` when
no alerting branch fired. -/
def firedTag (reading_type : String) (value : Option ℚ)
    (t : ThresholdMap) : Option String :=
  let v := value.getD 0
  if reading_type = "blood_pressure" ∧ pyTruthy value then
    if v > t.systolicMax then some "high_bp" else none
  else if reading_type = "glucose" ∧ pyTruthy value then
    if v > t.glucoseMax then some "high_glucose"
    else if v < t.glucoseMin then some "low_glucose"
    else none
  else if reading_type = "heart_rate" ∧ pyTruthy value then
    if v > t.heartRateMax then some "high_heart_rate"
    else if v < t.heartRateMin then some "low_heart_rate"
    else none
  else none

end CKD

namespace CKD

lemma default_systolicMax : defaultThresholds.systolicMax = 140 := rfl

lemma default_glucoseMax : defaultThresholds.glucoseMax = 140 := rfl

lemma default_glucoseMin : defaultThresholds.glucoseMin = 70 := rfl

lemma default_heartRateMax : defaultThresholds.heartRateMax = 100 := rfl

lemma default_heartRateMin : defaultThresholds.heartRateMin = 60 := rfl

/-- C9: a reading whose extracted numeric value is exactly 0 classifies as
quality good with no alert for every reading type and every profile set,
because each type branch is guarded by Python truthiness (`... and value`),
which treats 0 like an absent value. -/
theorem zero_value_classifies_good (reading_type : String) (patient_id : Nat)
    (profiles : List MonitoringProfile) :
    analyzeReading reading_type (some 0) patient_id profiles = goodAnalysis := by
  simp [analyzeReading, pyTruthy]

/-- C1 (amended): whenever the extracted numeric value is absent or nonzero,
`_analyze_reading` returns exactly what the spec section 4.3 classification
table prescribes for the thresholds resolved for the patient. -/
theorem analyzeReading_matches_spec_table (reading_type : String)
    (value : Option ℚ) (patient_id : Nat) (profiles : List MonitoringProfile)
    (h : ∀ v, value = some v → v ≠ 0) :
    analyzeReading reading_type value patient_id profiles
      = specClassify reading_type value (resolveThresholds patient_id profiles) := by
  cases value with
  | none => simp [analyzeReading, specClassify, pyTruthy]
  | some v =>
    have hv : v ≠ 0 := h v rfl
    have ht : pyTruthy (some v) = true := by simp [pyTruthy, hv]
    by_cases h1 : reading_type = "blood_pressure"
    · subst h1
      simp only [analyzeReading, specClassify, ht, and_true]
      split_ifs <;> simp_all
    · by_cases h2 : reading_type = "glucose"
      · subst h2
        simp only [analyzeReading, specClassify, ht, and_true]
        split_ifs <;> simp_all
      · by_cases h3 : reading_type = "heart_rate"
        · subst h3
          simp only [analyzeReading, specClassify, ht, and_true]
          split_ifs <;> simp_all
        · simp only [analyzeReading, specClassify, ht, and_true]
          split_ifs <;> simp_all

/-- C1 witness: at glucose reading value 180 with no profile, the code and the
spec table both produce the critical high-glucose classification. -/
theorem analyzeReading_matches_spec_table_witness :
    analyzeReading "glucose" (some 180) 1 []
      = specClassify "glucose" (some 180) (resolveThresholds 1 []) :=
  analyzeReading_matches_spec_table "glucose" (some 180) 1 []
    (by intro v hv; injection hv with h2; subst h2; norm_num)

/-- C1 counterexample: at glucose value exactly 0 (below any positive
minimum), the spec table alerts critical-low while the code classifies good
with no alert, so the claim as stated fails. -/
theorem analyzeReading_spec_table_counterexample :
    analyzeReading "glucose" (some 0) 1 []
      ≠ specClassify "glucose" (some 0) (resolveThresholds 1 []) := by decide

/-- C8: threshold resolution never fails and deterministically yields the
hardcoded defaults: with no profile row for the patient the whole default
table is returned (in particular glucose max 140 / min 70), and a profile
lacking a per-type entry yields the per-type default bounds through the
`.get(..., default)` fallbacks. -/
theorem resolveThresholds_defaults (patient_id : Nat)
    (profiles : List MonitoringProfile) (t : ThresholdMap)
    (hno : profiles.find? (fun p => p.patient_id == patient_id) = none)
    (hbp : t.blood_pressure = none) (hg : t.glucose = none)
    (hhr : t.heart_rate = none) :
    resolveThresholds patient_id profiles = defaultThresholds
    ∧ (resolveThresholds patient_id profiles).glucoseMax = 140
    ∧ (resolveThresholds patient_id profiles).glucoseMin = 70
    ∧ t.systolicMax = 140 ∧ t.glucoseMax = 140 ∧ t.glucoseMin = 70
    ∧ t.heartRateMax = 100 ∧ t.heartRateMin = 60 := by
  have h1 : resolveThresholds patient_id profiles = defaultThresholds := by
    simp [resolveThresholds, hno]
  refine ⟨h1, ?_, ?_, ?_, ?_, ?_, ?_, ?_⟩ <;>
    simp [h1, defaultThresholds, ThresholdMap.glucoseMax, ThresholdMap.glucoseMin,
      ThresholdMap.systolicMax, ThresholdMap.heartRateMax, ThresholdMap.heartRateMin,
      hbp, hg, hhr]

/-- C8 witness: patient 5 with an empty profile table, and a threshold map
with every per-type entry missing. -/
theorem resolveThresholds_defaults_witness :
    resolveThresholds 5 [] = defaultThresholds
    ∧ (resolveThresholds 5 []).glucoseMax = 140
    ∧ (resolveThresholds 5 []).glucoseMin = 70
    ∧ (ThresholdMap.mk none none none).systolicMax = 140
    ∧ (ThresholdMap.mk none none none).glucoseMax = 140
    ∧ (ThresholdMap.mk none none none).glucoseMin = 70
    ∧ (ThresholdMap.mk none none none).heartRateMax = 100
    ∧ (ThresholdMap.mk none none none).heartRateMin = 60 :=
  resolveThresholds_defaults 5 [] (ThresholdMap.mk none none none) rfl rfl rfl rfl

end CKD

namespace CKD

/-- A patient profile with a tightened glucose max (120) — used to exhibit the
divergence between `_analyze_reading` (resolved thresholds) and
`_get_alert_type` (hardcoded bounds). -/
def tightGlucoseProfile : MonitoringProfile :=
  { patient_id := 1
    thresholds :=
      { blood_pressure := none
        glucose := some { max := some 120, min := some 70 }
        heart_rate := none } }

/-- C7 (amended): `_get_alert_type` compares against fixed default bounds, so
it returns the directional tag of the classification branch that fired
whenever the thresholds resolved for the patient are the system defaults. -/
theorem getAlertType_consistent_with_defaults (reading_type : String)
    (value : Option ℚ) (patient_id : Nat) (profiles : List MonitoringProfile)
    (hd : resolveThresholds patient_id profiles = defaultThresholds)
    (ha : (analyzeReading reading_type value patient_id profiles).is_alert = true) :
    firedTag reading_type value (resolveThresholds patient_id profiles)
      = some (getAlertType reading_type value) := by
  rw [hd]
  cases value with
  | none =>
    exfalso
    simp [analyzeReading, pyTruthy, goodAnalysis] at ha
  | some v =>
    by_cases hv : v = 0
    · exfalso
      subst hv
      simp [analyzeReading, pyTruthy, goodAnalysis] at ha
    · have ht : pyTruthy (some v) = true := by simp [pyTruthy, hv]
      simp only [analyzeReading, hd, ht, and_true] at ha
      by_cases h1 : reading_type = "blood_pressure"
      · subst h1
        simp only [firedTag, getAlertType, ht, and_true, true_and]
        simp_all [default_systolicMax, goodAnalysis]
        split_ifs <;> simp_all
      · by_cases h2 : reading_type = "glucose"
        · subst h2
          simp only [firedTag, getAlertType, ht, and_true, true_and]
          simp_all [default_glucoseMax, default_glucoseMin, goodAnalysis]
          split_ifs <;> simp_all
        · by_cases h3 : reading_type = "heart_rate"
          · subst h3
            simp only [firedTag, getAlertType, ht, and_true, true_and]
            simp_all [default_heartRateMax, default_heartRateMin, goodAnalysis]
            split_ifs <;> simp_all
          · exfalso
            simp [h1, h2, h3, goodAnalysis] at ha

/-- C7 witness: glucose 180 with no profile — the high-glucose branch fires
and the tag is `high_glucose`. -/
theorem getAlertType_consistent_witness :
    firedTag "glucose" (some 180) (resolveThresholds 1 [])
      = some (getAlertType "glucose" (some 180)) :=
  getAlertType_consistent_with_defaults "glucose" (some 180) 1 [] rfl (by decide)

/-- C7 counterexample: with a profile setting glucose max to 120, value 130
fires the high-glucose branch of `_analyze_reading` (is_alert = true), yet
`_get_alert_type` — hardwired to 140/70 — returns the `general_glucose`
fallback rather than the directional tag of the branch that fired. -/
theorem getAlertType_resolved_thresholds_counterexample :
    ¬ ((analyzeReading "glucose" (some 130) 1 [tightGlucoseProfile]).is_alert = true →
        firedTag "glucose" (some 130) (resolveThresholds 1 [tightGlucoseProfile])
          = some (getAlertType "glucose" (some 130))) := by decide

end CKD

namespace CKD

/-- One `sensor_devices` row. -/
structure SensorDevice where
  id : Nat
  patient_id : Nat
  device_type : String
  device_name : String
  manufacturer : Option String
  model : Option String
  device_id : String
  mac_address : Option String
  is_active : Bool
  last_sync : Nat
  deriving Repr, DecidableEq

/-- The reading payload dict, restricted to the keys the endpoint reads
(`value`, `systolic`, `unit`). A key holding a non-numeric JSON value behaves
as absent under the code's `isinstance(..., (int, float))` guards, so numeric
keys are modelled directly as optional rationals. -/
structure ReadingData where
  value : Option ℚ
  systolic : Option ℚ
  unit : Option String
  deriving Repr, DecidableEq

/-- One `sensor_readings` row. -/
structure SensorReading where
  id : Nat
  device_id : Nat
  patient_id : Nat
  reading_type : String
  reading_timestamp : Nat
  reading_data : ReadingData
  numeric_value : Option ℚ
  unit : Option String
  quality : String
  is_alert : Bool
  alert_severity : Option String
  alert_message : Option String
  deriving Repr, DecidableEq

/-- One `alert_logs` row. -/
structure AlertLog where
  id : Nat
  patient_id : Nat
  sensor_reading_id : Option Nat
  alert_type : String
  severity : String
  alert_message : String
  alert_timestamp : Nat
  is_read : Bool
  is_acknowledged : Bool
  acknowledged_by : Option String
  acknowledged_at : Option Nat
  deriving Repr, DecidableEq

/-- The durable store visible to the endpoints: patient ids, the four IoT
tables, and a fresh-id counter standing for primary-key assignment. -/
structure Store where
  patients : List Nat
  devices : List SensorDevice
  readings : List SensorReading
  alerts : List AlertLog
  profiles : List MonitoringProfile
  next_id : Nat
  deriving Repr, DecidableEq

/-- The `SensorReadingCreate` request body. -/
structure SensorReadingCreate where
  device_id : String
  reading_type : String
  reading_data : ReadingData
  reading_timestamp : Option Nat
  deriving Repr, DecidableEq

/-- The `SensorReadingResponse` model: as in the source, `numeric_value : float` and
`unit : str` are NOT optional — constructing the response with `None` in
either raises a validation error. -/
structure SensorReadingResponse where
  id : Nat
  device_name : String
  reading_type : String
  reading_timestamp : Nat
  numeric_value : ℚ
  unit : String
  quality : String
  is_alert : Bool
  alert_message : Option String
  deriving Repr, DecidableEq

/-- Outcome of `POST /readings`: 201-style success, `404 Device not found`,
`400 Device is inactive`, or the generic 500 produced by the
`except Exception` handler. -/
inductive IngestOutcome where
  | created (resp : SensorReadingResponse)
  | deviceNotFound
  | deviceInactive
  | serverError
  deriving Repr, DecidableEq

/-- Numeric-value extraction (iot.py lines 102-111): prefer a numeric
`value` key; else, for blood_pressure only, a numeric `systolic` key;
else `None`. -/
def extractNumericValue (reading_type : String) (d : ReadingData) : Option ℚ :=
  match d.value with
  | some v => some v
  | none => if reading_type = "blood_pressure" then d.systolic else none

/-- Unit derivation, `reading_data.get('unit') or ("mmHg" if reading_type == "blood_pressure"
else None)` — note the `or`, so an empty-string unit also falls through. -/
def deriveUnit (reading_type : String) (d : ReadingData) : Option String :=
  let fallback := if reading_type = "blood_pressure" then some "mmHg" else none
  match d.unit with
  | some u => if u = "" then fallback else some u
  | none => fallback

/-- Construction of `SensorReadingResponse` from the committed row: fails
(raising inside the endpoint's `try`) when `numeric_value` or `unit` is
`None`, because the response model declares them non-optional. -/
def mkReadingResponse (device_name : String) (r : SensorReading) :
    Option SensorReadingResponse :=
  match r.numeric_value, r.unit with
  | some nv, some u =>
    some { id := r.id, device_name := device_name, reading_type := r.reading_type
           reading_timestamp := r.reading_timestamp, numeric_value := nv, unit := u
           quality := r.quality, is_alert := r.is_alert
           alert_message := r.alert_message }
  | _, _ => none

/-- The `SensorReading` row staged by `create_sensor_reading` for a found,
active device. -/
def stagedReading (s : Store) (req : SensorReadingCreate) (device : SensorDevice)
    (now : Nat) : SensorReading :=
  let numeric_value := extractNumericValue req.reading_type req.reading_data
  let a := analyzeReading req.reading_type numeric_value device.patient_id s.profiles
  { id := s.next_id, device_id := device.id, patient_id := device.patient_id
    reading_type := req.reading_type
    reading_timestamp := req.reading_timestamp.getD now
    reading_data := req.reading_data
    numeric_value := numeric_value
    unit := deriveUnit req.reading_type req.reading_data
    quality := a.quality, is_alert := a.is_alert
    alert_severity := a.severity, alert_message := a.message }

/-- The `AlertLog` row staged when `is_alert` holds. `sensor_reading_id` is
set to `None` ("will be set after flush") — and the source never sets it. -/
def stagedAlert (s : Store) (req : SensorReadingCreate) (device : SensorDevice)
    (a : Analysis) (numeric_value : Option ℚ) (now : Nat) : AlertLog :=
  { id := s.next_id + 1, patient_id := device.patient_id
    sensor_reading_id := none
    alert_type := getAlertType req.reading_type numeric_value
    severity := (a.severity).getD "", alert_message := (a.message).getD ""
    alert_timestamp := now, is_read := false, is_acknowledged := false
    acknowledged_by := none, acknowledged_at := none }

/-- The store state after a successful `db.commit()` in
`create_sensor_reading`: the new reading row, the alert row when the analysis
alerted, and the device's refreshed `last_sync`, applied together. -/
def ingestCommittedStore (s : Store) (req : SensorReadingCreate)
    (device : SensorDevice) (now : Nat) : Store :=
  let numeric_value := extractNumericValue req.reading_type req.reading_data
  let a := analyzeReading req.reading_type numeric_value device.patient_id s.profiles
  { s with
    devices := s.devices.map
      (fun d => if d.id == device.id then { d with last_sync := now } else d)
    readings := s.readings ++ [stagedReading s req device now]
    alerts :=
      if a.is_alert then s.alerts ++ [stagedAlert s req device a numeric_value now]
      else s.alerts
    next_id := s.next_id + 2 }

/-- Endpoint `POST /readings` (`create_sensor_reading`): device lookup by external id,
activity check, extraction, classification, then one commit covering the
reading, the conditional alert and the device's `last_sync` refresh.
`commitOk = false` models `db.commit()` raising: the `except Exception`
handler rolls the session back, so the store is unchanged and a 500 is
returned. A response-model validation error (absent `numeric_value`/`unit`)
raises after the commit: the rollback is then a no-op on already-committed
state, and the endpoint still returns a 500. -/
def create_sensor_reading (s : Store) (req : SensorReadingCreate) (now : Nat)
    (commitOk : Bool) : IngestOutcome × Store :=
  match s.devices.find? (fun d => d.device_id == req.device_id) with
  | none => (IngestOutcome.deviceNotFound, s)
  | some device =>
    if device.is_active = false then (IngestOutcome.deviceInactive, s)
    else
      let db_reading := stagedReading s req device now
      if commitOk = false then (IngestOutcome.serverError, s)
      else
        let s2 := ingestCommittedStore s req device now
        match mkReadingResponse device.device_name db_reading with
        | some resp => (IngestOutcome.created resp, s2)
        | none => (IngestOutcome.serverError, s2)

end CKD


namespace CKD

/-- C3: ingestion is atomic. For every call, the resulting store is either
exactly the initial store (precondition failure or failed commit, rolled
back), or the full-commit store, in which the new reading, its alert when and
only when the reading alerts, and the device's refreshed last-contact are all
present together — never a partial subset. -/
theorem ingest_atomic (s : Store) (req : SensorReadingCreate) (now : Nat)
    (ok : Bool) :
    (create_sensor_reading s req now ok).2 = s
    ∨ ∃ device,
        s.devices.find? (fun d => d.device_id == req.device_id) = some device
        ∧ (create_sensor_reading s req now ok).2 = ingestCommittedStore s req device now
        ∧ (ingestCommittedStore s req device now).readings
            = s.readings ++ [stagedReading s req device now]
        ∧ ((stagedReading s req device now).is_alert = true →
            ∃ al, (ingestCommittedStore s req device now).alerts = s.alerts ++ [al])
        ∧ ((stagedReading s req device now).is_alert = false →
            (ingestCommittedStore s req device now).alerts = s.alerts)
        ∧ (ingestCommittedStore s req device now).devices
            = s.devices.map
                (fun d => if d.id == device.id then { d with last_sync := now } else d) := by
  unfold create_sensor_reading
  cases hf : s.devices.find? (fun d => d.device_id == req.device_id) with
  | none => left; rfl
  | some device =>
    by_cases hact : device.is_active = false
    · left; simp [hact]
    · by_cases hok : ok = false
      · left; simp [hact, hok]
      · right
        refine ⟨device, rfl, ?_, rfl, ?_, ?_, rfl⟩
        · simp only [hact, hok, if_false]
          cases mkReadingResponse device.device_name (stagedReading s req device now) <;> rfl
        · intro hal
          have ha : (analyzeReading req.reading_type
              (extractNumericValue req.reading_type req.reading_data)
              device.patient_id s.profiles).is_alert = true := hal
          refine ⟨stagedAlert s req device
            (analyzeReading req.reading_type
              (extractNumericValue req.reading_type req.reading_data)
              device.patient_id s.profiles)
            (extractNumericValue req.reading_type req.reading_data) now, ?_⟩
          simp [ingestCommittedStore, ha]
        · intro hal
          have ha : (analyzeReading req.reading_type
              (extractNumericValue req.reading_type req.reading_data)
              device.patient_id s.profiles).is_alert = false := hal
          simp [ingestCommittedStore, ha]

/-- C4: precondition failures have no side effects — an inactive device yields
the 400 "Device is inactive" outcome with the store untouched, and an unknown
external device id yields the 404 "Device not found" outcome with the store
untouched. -/
theorem ingest_precondition_failures (s : Store) (req : SensorReadingCreate)
    (now : Nat) (ok : Bool) :
    (∀ device, s.devices.find? (fun d => d.device_id == req.device_id) = some device →
        device.is_active = false →
        create_sensor_reading s req now ok = (IngestOutcome.deviceInactive, s))
    ∧ (s.devices.find? (fun d => d.device_id == req.device_id) = none →
        create_sensor_reading s req now ok = (IngestOutcome.deviceNotFound, s)) := by
  constructor
  · intro device hfind hia
    simp [create_sensor_reading, hfind, hia]
  · intro hfind
    simp [create_sensor_reading, hfind]

/-- A registered, inactive glucose device. -/
def inactiveDevice : SensorDevice :=
  { id := 2, patient_id := 1, device_type := "glucose", device_name := "G2"
    manufacturer := none, model := none, device_id := "DX", mac_address := none
    is_active := false, last_sync := 0 }

/-- A store holding only the inactive device. -/
def storeWithInactive : Store :=
  { patients := [1], devices := [inactiveDevice], readings := [], alerts := []
    profiles := [], next_id := 10 }

/-- A high-glucose reading request aimed at external device id `DX`. -/
def reqDX : SensorReadingCreate :=
  { device_id := "DX", reading_type := "glucose"
    reading_data := { value := some 180, systolic := none, unit := some "mg/dL" }
    reading_timestamp := none }

/-- C4 witness: the inactive-device and unknown-device failures at concrete
inputs. -/
theorem ingest_precondition_failures_witness :
    create_sensor_reading storeWithInactive reqDX 3 true
      = (IngestOutcome.deviceInactive, storeWithInactive)
    ∧ create_sensor_reading { storeWithInactive with devices := [] } reqDX 3 true
      = (IngestOutcome.deviceNotFound, { storeWithInactive with devices := [] }) :=
  ⟨(ingest_precondition_failures storeWithInactive reqDX 3 true).1
      inactiveDevice (by decide) rfl,
   (ingest_precondition_failures { storeWithInactive with devices := [] } reqDX 3 true).2
      (by decide)⟩

end CKD

namespace CKD

/-- A registered, active glucose device. -/
def glucoseDevice : SensorDevice :=
  { id := 3, patient_id := 1, device_type := "glucose", device_name := "G1"
    manufacturer := none, model := none, device_id := "D1", mac_address := none
    is_active := true, last_sync := 0 }

/-- A store holding only the active glucose device. -/
def glucoseStore : Store :=
  { patients := [1], devices := [glucoseDevice], readings := [], alerts := []
    profiles := [], next_id := 10 }

/-- A high-glucose reading request (value 180, above the default max 140). -/
def highGlucoseReq : SensorReadingCreate :=
  { device_id := "D1", reading_type := "glucose"
    reading_data := { value := some 180, systolic := none, unit := some "mg/dL" }
    reading_timestamp := none }

/-- C2 evaluation at the failing input: ingesting glucose 180 creates exactly
one alerting reading and exactly one alert carrying the same severity and
message, created unread and unacknowledged — but its `sensor_reading_id` is
`None` (the source writes `None` with a "will be set after flush" comment and
never sets it), so the alert references no reading. -/
theorem alert_never_references_reading :
    (create_sensor_reading glucoseStore highGlucoseReq 5 true).2.readings.map
        (fun r => (r.id, r.is_alert, r.alert_severity, r.alert_message))
      = [(10, true, some "critical", some "High glucose level: 180 mg/dL")]
    ∧ (create_sensor_reading glucoseStore highGlucoseReq 5 true).2.alerts.map
        (fun al => (al.sensor_reading_id, al.severity, al.alert_message,
          al.is_read, al.is_acknowledged))
      = [(none, "critical", "High glucose level: 180 mg/dL", false, false)] := by
  decide

/-- A registered, active weight scale. -/
def weightDevice : SensorDevice :=
  { id := 4, patient_id := 1, device_type := "weight", device_name := "W1"
    manufacturer := none, model := none, device_id := "D2", mac_address := none
    is_active := true, last_sync := 0 }

/-- A store holding only the active weight device. -/
def weightStore : Store :=
  { patients := [1], devices := [weightDevice], readings := [], alerts := []
    profiles := [], next_id := 20 }

/-- A weight reading whose payload yields no numeric value and no unit. -/
def emptyPayloadReq : SensorReadingCreate :=
  { device_id := "D2", reading_type := "weight"
    reading_data := { value := none, systolic := none, unit := none }
    reading_timestamp := none }

/-- C5 evaluation at the failing input: a payload with no numeric value on an
active device classifies as quality good with no alert and the reading is
committed — yet the endpoint returns the generic 500 instead of the created
summary, because `SensorReadingResponse` declares `numeric_value`/`unit`
non-optional and its construction raises after the commit. -/
theorem no_numeric_value_returns_500_after_commit :
    (create_sensor_reading weightStore emptyPayloadReq 7 true).1
      = IngestOutcome.serverError
    ∧ (create_sensor_reading weightStore emptyPayloadReq 7 true).2.readings.map
        (fun r => (r.quality, r.is_alert, r.numeric_value, r.unit))
      = [("good", false, none, none)]
    ∧ (create_sensor_reading weightStore emptyPayloadReq 7 true).2.alerts = [] := by
  decide

end CKD

namespace CKD

/-- The `DeviceRegistration` request body. -/
structure DeviceRegistration where
  patient_id : Nat
  device_type : String
  device_name : String
  manufacturer : Option String
  model : Option String
  device_id : String
  mac_address : Option String
  deriving Repr, DecidableEq

/-- Outcome of `POST /devices`: success, `400 Device already registered`, or
`404 Patient not found`. -/
inductive RegisterOutcome where
  | registered (d : SensorDevice)
  | conflict
  | patientNotFound
  deriving Repr, DecidableEq

/-- The device row staged by `register_device` on the success path: active,
with `last_sync` set to the registration time. -/
def stagedDevice (s : Store) (req : DeviceRegistration) (now : Nat) :
    SensorDevice :=
  { id := s.next_id, patient_id := req.patient_id
    device_type := req.device_type, device_name := req.device_name
    manufacturer := req.manufacturer, model := req.model
    device_id := req.device_id, mac_address := req.mac_address
    is_active := true, last_sync := now }

/-- Endpoint `POST /devices` (`register_device`): the duplicate-device check runs
first, the patient-existence check second, then the device is created active
with `last_sync = now`. -/
def register_device (s : Store) (req : DeviceRegistration) (now : Nat) :
    RegisterOutcome × Store :=
  match s.devices.find? (fun d => d.device_id == req.device_id) with
  | some _ => (RegisterOutcome.conflict, s)
  | none =>
    if req.patient_id ∈ s.patients then
      (RegisterOutcome.registered (stagedDevice s req now),
        { s with devices := s.devices ++ [stagedDevice s req now]
                 next_id := s.next_id + 1 })
    else (RegisterOutcome.patientNotFound, s)

/-- C10: the duplicate-id check precedes the patient check — a duplicate
device id yields Conflict with no store change regardless of whether the
patient exists; the patient check is reached only when the id is new; and a
successful registration appends a device that is active with last-contact set
to the registration time. -/
theorem register_device_check_order (s : Store) (req : DeviceRegistration)
    (now : Nat) :
    ((∃ d ∈ s.devices, d.device_id = req.device_id) →
        register_device s req now = (RegisterOutcome.conflict, s))
    ∧ ((∀ d ∈ s.devices, d.device_id ≠ req.device_id) →
        req.patient_id ∉ s.patients →
        register_device s req now = (RegisterOutcome.patientNotFound, s))
    ∧ (∀ dev, (register_device s req now).1 = RegisterOutcome.registered dev →
        dev.is_active = true ∧ dev.last_sync = now
        ∧ (register_device s req now).2.devices = s.devices ++ [dev]) := by
  refine ⟨?_, ?_, ?_⟩
  · rintro ⟨d, hd, he⟩
    cases hfind : s.devices.find? (fun d => d.device_id == req.device_id) with
    | none =>
      rw [List.find?_eq_none] at hfind
      exact absurd (by simp [he]) (hfind d hd)
    | some d2 => simp [register_device, hfind]
  · intro hall hp
    have hfind : s.devices.find? (fun d => d.device_id == req.device_id) = none :=
      List.find?_eq_none.mpr (fun d hd => by simp [hall d hd])
    simp [register_device, hfind, hp]
  · intro dev hreg
    cases hfind : s.devices.find? (fun d => d.device_id == req.device_id) with
    | some d2 => simp [register_device, hfind] at hreg
    | none =>
      by_cases hp : req.patient_id ∈ s.patients
      · have : dev = stagedDevice s req now := by
          simp [register_device, hfind, hp] at hreg
          exact hreg.symm
        subst this
        refine ⟨rfl, rfl, ?_⟩
        simp [register_device, hfind, hp]
      · simp [register_device, hfind, hp] at hreg

/-- A registration request re-using external id `D1` for an unknown patient. -/
def dupRegistration : DeviceRegistration :=
  { patient_id := 99, device_type := "glucose", device_name := "dup"
    manufacturer := none, model := none, device_id := "D1", mac_address := none }

/-- A registration request with a fresh external id for patient 1. -/
def freshRegistration : DeviceRegistration :=
  { patient_id := 1, device_type := "heart_rate", device_name := "HR"
    manufacturer := none, model := none, device_id := "D9", mac_address := none }

/-- C10 witness: duplicate id gives Conflict although patient 99 is unknown;
an unknown patient on a fresh id gives NotFound; a successful registration
yields an active device with `last_sync` = registration time. -/
theorem register_device_check_order_witness :
    register_device glucoseStore dupRegistration 4 = (RegisterOutcome.conflict, glucoseStore)
    ∧ register_device { glucoseStore with devices := [] } dupRegistration 4
        = (RegisterOutcome.patientNotFound, { glucoseStore with devices := [] })
    ∧ ((stagedDevice glucoseStore freshRegistration 4).is_active = true
        ∧ (stagedDevice glucoseStore freshRegistration 4).last_sync = 4
        ∧ (register_device glucoseStore freshRegistration 4).2.devices
            = glucoseStore.devices ++ [stagedDevice glucoseStore freshRegistration 4]) :=
  ⟨(register_device_check_order glucoseStore dupRegistration 4).1
      ⟨glucoseDevice, by decide, by decide⟩,
   (register_device_check_order { glucoseStore with devices := [] } dupRegistration 4).2.1
      (by decide) (by decide),
   (register_device_check_order glucoseStore freshRegistration 4).2.2
      (stagedDevice glucoseStore freshRegistration 4) (by decide)⟩

end CKD

namespace CKD

/-- The acknowledged version of an alert row: acknowledged and read, with the
acting actor and acknowledgment time recorded (overwriting any previous
acknowledger — last writer wins). -/
def ackUpdate (a : AlertLog) (actor : String) (now : Nat) : AlertLog :=
  { a with is_read := true, is_acknowledged := true
           acknowledged_by := some actor, acknowledged_at := some now }

/-- The store with alert `alert_id` replaced by its acknowledged version. -/
def ackStoreUpdate (s : Store) (alert_id : Nat) (a2 : AlertLog) : Store :=
  { s with alerts := s.alerts.map (fun b => if b.id == alert_id then a2 else b) }

/-- Modelled from the spec: the repository's `AlertLog` model declares the
acknowledgment columns (`is_read`, `is_acknowledged`, `acknowledged_by`,
`acknowledged_at`) but no acknowledge endpoint exists under the source tree;
`AcknowledgeAlert(alertId, actor)` is modelled from spec section 4.5 — look
the alert up by id (`NotFound`, i.e. `none`, when absent), set
acknowledged=true and read=true, and record the actor and the acknowledgment
time. -/
def acknowledgeAlert (s : Store) (alert_id : Nat) (actor : String)
    (now : Nat) : Option (AlertLog × Store) :=
  match s.alerts.find? (fun a => a.id == alert_id) with
  | none => none
  | some a =>
    some (ackUpdate a actor now, ackStoreUpdate s alert_id (ackUpdate a actor now))

/-- C6: acknowledging a missing alert fails with NotFound; acknowledging an
existing alert succeeds, sets acknowledged=true and read=true, records the
actor and time, and preserves every other field — so re-acknowledging an
already-acknowledged alert never errors and only overwrites the acknowledger
and acknowledgment time (last writer wins). -/
theorem acknowledgeAlert_spec (s : Store) (alert_id : Nat) (actor : String)
    (now : Nat) :
    (s.alerts.find? (fun a => a.id == alert_id) = none →
        acknowledgeAlert s alert_id actor now = none)
    ∧ (∀ a, s.alerts.find? (fun a => a.id == alert_id) = some a →
        acknowledgeAlert s alert_id actor now
          = some (ackUpdate a actor now, ackStoreUpdate s alert_id (ackUpdate a actor now))
        ∧ (ackUpdate a actor now).is_acknowledged = true
        ∧ (ackUpdate a actor now).is_read = true
        ∧ (ackUpdate a actor now).acknowledged_by = some actor
        ∧ (ackUpdate a actor now).acknowledged_at = some now
        ∧ (ackUpdate a actor now).id = a.id
        ∧ (ackUpdate a actor now).patient_id = a.patient_id
        ∧ (ackUpdate a actor now).sensor_reading_id = a.sensor_reading_id
        ∧ (ackUpdate a actor now).alert_type = a.alert_type
        ∧ (ackUpdate a actor now).severity = a.severity
        ∧ (ackUpdate a actor now).alert_message = a.alert_message
        ∧ (ackUpdate a actor now).alert_timestamp = a.alert_timestamp) := by
  constructor
  · intro hfind
    simp [acknowledgeAlert, hfind]
  · intro a hfind
    refine ⟨by simp [acknowledgeAlert, hfind], ?_⟩
    simp [ackUpdate]

/-- An alert already acknowledged by `dr_a` at time 2. -/
def ackedAlert : AlertLog :=
  { id := 7, patient_id := 1, sensor_reading_id := none
    alert_type := "high_glucose", severity := "critical"
    alert_message := "High glucose level: 180 mg/dL", alert_timestamp := 1
    is_read := true, is_acknowledged := true
    acknowledged_by := some "dr_a", acknowledged_at := some 2 }

/-- A store holding only the already-acknowledged alert. -/
def ackStore : Store :=
  { patients := [1], devices := [], readings := [], alerts := [ackedAlert]
    profiles := [], next_id := 30 }

/-- C6 witness: re-acknowledging the already-acknowledged alert 7 as `dr_b`
at time 9 succeeds and only the acknowledger and time change. -/
theorem acknowledgeAlert_spec_witness :
    acknowledgeAlert ackStore 7 "dr_b" 9
      = some (ackUpdate ackedAlert "dr_b" 9,
          ackStoreUpdate ackStore 7 (ackUpdate ackedAlert "dr_b" 9))
    ∧ (ackUpdate ackedAlert "dr_b" 9).is_acknowledged = true
    ∧ (ackUpdate ackedAlert "dr_b" 9).is_read = true
    ∧ (ackUpdate ackedAlert "dr_b" 9).acknowledged_by = some "dr_b"
    ∧ (ackUpdate ackedAlert "dr_b" 9).acknowledged_at = some 9
    ∧ (ackUpdate ackedAlert "dr_b" 9).id = ackedAlert.id
    ∧ (ackUpdate ackedAlert "dr_b" 9).patient_id = ackedAlert.patient_id
    ∧ (ackUpdate ackedAlert "dr_b" 9).sensor_reading_id = ackedAlert.sensor_reading_id
    ∧ (ackUpdate ackedAlert "dr_b" 9).alert_type = ackedAlert.alert_type
    ∧ (ackUpdate ackedAlert "dr_b" 9).severity = ackedAlert.severity
    ∧ (ackUpdate ackedAlert "dr_b" 9).alert_message = ackedAlert.alert_message
    ∧ (ackUpdate ackedAlert "dr_b" 9).alert_timestamp = ackedAlert.alert_timestamp :=
  (acknowledgeAlert_spec ackStore 7 "dr_b" 9).2 ackedAlert (by decide)

end CKD
